import Mathlib

/-!
Verification model of the analysis request pipeline of the roast-level
repository.  The embedded code is:

* `src/unnamed/part_002` — the Express route module with the retry/timeout
  transport wrapper (`fetchWithRetry`), the analysis service
  (`analyzeWithAbacus`) with the payload size guard, the `POST /api/analyze`
  handler and the `GET /api/health/abacus` handler (namespace `Part002`);
* `src/server/routes.ts` — the variant of the same module without the size
  guard and without retry (namespace `RoutesTs`);
* `src/unnamed/part_001` — the client history store's save operation
  (`handleSaveToHistory`, namespace `Client`).

Platform builtins the code relies on are modelled from their standard
semantics: `JSON.parse` as a recursive-descent JSON parser over the value
grammar (`jsonParse`), the regular-expression call
`content.match(/\x7b[\s\S]*\x7d/)` as `jsMatchBrace` (see its comment for the
greedy-match analysis), and `fetch` as an oracle `Nat → FetchOutcome` giving
the outcome of each successive network attempt.  Network effects are made
observable by returning, next to the result, the list of issued calls (each
entry records the per-attempt timeout in milliseconds that the call was
configured with).
-/

namespace RoastModel

set_option maxRecDepth 100000

/-- JSON document values as produced by `JSON.parse`.  Numeric literals are
kept as their source lexeme: the embedded program never computes with a
parsed number, it only stores and re-serialises values, so the lexeme is a
faithful representation.  Object fields keep their textual order; duplicate
keys are resolved at access time by `lookupLast` (in `JSON.parse`, a later
duplicate key overwrites an earlier one). -/
inductive JsonValue where
  | null
  | bool (b : Bool)
  | num (lexeme : String)
  | str (s : String)
  | arr (elems : List JsonValue)
  | obj (fields : List (String × JsonValue))

/-- JSON whitespace characters (space, tab, line feed, carriage return). -/
def isJsonWs (c : Char) : Bool :=
  c = ' ' || c = '\t' || c = '\n' || c = '\r'

/-- Skip leading JSON whitespace. -/
def skipWs (cs : List Char) : List Char :=
  cs.dropWhile isJsonWs

/-- Value of a hexadecimal digit, if the character is one. -/
def hexVal (c : Char) : Option Nat :=
  if '0' ≤ c ∧ c ≤ '9' then some (c.toNat - '0'.toNat)
  else if 'a' ≤ c ∧ c ≤ 'f' then some (c.toNat - 'a'.toNat + 10)
  else if 'A' ≤ c ∧ c ≤ 'F' then some (c.toNat - 'A'.toNat + 10)
  else none

/-- Prepend a character to the content component of a string-parser result. -/
def consFirst (c : Char) (o : Option (List Char × List Char)) :
    Option (List Char × List Char) :=
  match o with
  | some (content, rest) => some (c :: content, rest)
  | none => none

/-- Decimal digit test. -/
def isDigitChar (c : Char) : Bool :=
  decide ('0' ≤ c ∧ c ≤ '9')

/-- Non-zero decimal digit test. -/
def isOneNine (c : Char) : Bool :=
  decide ('1' ≤ c ∧ c ≤ '9')

/-- Body of a JSON string literal, after the opening quote: characters up to
the closing quote, decoding the escape sequences of the JSON grammar.  An
unescaped control character (code point below 32) is a syntax error, as in
`JSON.parse`.  (A `\u` escape denoting a UTF-16 surrogate half is folded to
the replacement of `Char.ofNat`; no input in this development contains
one.) -/
def parseStringBody : Nat → List Char → Option (List Char × List Char)
  | 0, _ => none
  | Nat.succ fuel, cs =>
    match cs with
    | [] => none
    | '"' :: rest => some ([], rest)
    | '\\' :: rest =>
      match rest with
      | '"' :: r => consFirst '"' (parseStringBody fuel r)
      | '\\' :: r => consFirst '\\' (parseStringBody fuel r)
      | '/' :: r => consFirst '/' (parseStringBody fuel r)
      | 'b' :: r => consFirst (Char.ofNat 8) (parseStringBody fuel r)
      | 'f' :: r => consFirst (Char.ofNat 12) (parseStringBody fuel r)
      | 'n' :: r => consFirst '\n' (parseStringBody fuel r)
      | 'r' :: r => consFirst '\r' (parseStringBody fuel r)
      | 't' :: r => consFirst '\t' (parseStringBody fuel r)
      | 'u' :: a :: b :: c :: d :: r =>
        match hexVal a, hexVal b, hexVal c, hexVal d with
        | some ha, some hb, some hc, some hd =>
            consFirst (Char.ofNat (((ha * 16 + hb) * 16 + hc) * 16 + hd))
              (parseStringBody fuel r)
        | _, _, _, _ => none
      | _ => none
    | c :: rest =>
      if c.toNat < 32 then none else consFirst c (parseStringBody fuel rest)

/-- Optional fraction part of a JSON number: either absent, or a dot followed
by at least one digit. -/
def parseFrac (cs : List Char) : Option (List Char × List Char) :=
  match cs with
  | '.' :: r =>
    let ds := r.takeWhile isDigitChar
    if ds.isEmpty then none else some ('.' :: ds, r.dropWhile isDigitChar)
  | _ => some ([], cs)

/-- Optional exponent part of a JSON number. -/
def parseExpPart (cs : List Char) : Option (List Char × List Char) :=
  match cs with
  | c :: r =>
    if c = 'e' ∨ c = 'E' then
      let (sgn, r2) :=
        match r with
        | '+' :: rr => ((['+'] : List Char), rr)
        | '-' :: rr => ((['-'] : List Char), rr)
        | _ => (([] : List Char), r)
      let ds := r2.takeWhile isDigitChar
      if ds.isEmpty then none
      else some (c :: (sgn ++ ds), r2.dropWhile isDigitChar)
    else some ([], cs)
  | [] => some ([], cs)

/-- Fraction and exponent of a JSON number, appended to the integer-part
lexeme. -/
def numTail (intLex : List Char) (cs : List Char) :
    Option (List Char × List Char) :=
  match parseFrac cs with
  | none => none
  | some (fr, cs2) =>
    match parseExpPart cs2 with
    | none => none
    | some (ex, cs3) => some (intLex ++ fr ++ ex, cs3)

/-- JSON number literal: optional minus sign, an integer part with no leading
zero, optional fraction and exponent.  Returns the lexeme and the remaining
input. -/
def parseNumber (cs : List Char) : Option (List Char × List Char) :=
  let (sign, cs1) :=
    match cs with
    | '-' :: r => ((['-'] : List Char), r)
    | _ => (([] : List Char), cs)
  match cs1 with
  | '0' :: r => numTail (sign ++ ['0']) r
  | c :: r =>
    if isOneNine c then
      numTail (sign ++ c :: r.takeWhile isDigitChar) (r.dropWhile isDigitChar)
    else none
  | [] => none

mutual

/-- One JSON value, taken from the head of the input (leading whitespace
already skipped by the caller).  The fuel argument dominates the recursion
depth; `jsonParse` supplies enough fuel for any input of its length. -/
def parseValue : Nat → List Char → Option (JsonValue × List Char)
  | 0, _ => none
  | Nat.succ fuel, cs =>
    match cs with
    | 'n' :: 'u' :: 'l' :: 'l' :: rest => some (.null, rest)
    | 't' :: 'r' :: 'u' :: 'e' :: rest => some (.bool true, rest)
    | 'f' :: 'a' :: 'l' :: 's' :: 'e' :: rest => some (.bool false, rest)
    | '"' :: rest =>
      match parseStringBody fuel rest with
      | some (content, rest2) => some (.str (String.mk content), rest2)
      | none => none
    | '[' :: rest =>
      match skipWs rest with
      | ']' :: rest2 => some (.arr [], rest2)
      | _ =>
        match parseElems fuel rest with
        | some (vs, rest2) => some (.arr vs, rest2)
        | none => none
    | '{' :: rest =>
      match skipWs rest with
      | '}' :: rest2 => some (.obj [], rest2)
      | _ =>
        match parseMembers fuel rest with
        | some (ms, rest2) => some (.obj ms, rest2)
        | none => none
    | other =>
      match parseNumber other with
      | some (lex, rest) => some (.num (String.mk lex), rest)
      | none => none

/-- Non-empty comma-separated array elements, ending at the closing
bracket. -/
def parseElems : Nat → List Char → Option (List JsonValue × List Char)
  | 0, _ => none
  | Nat.succ fuel, cs =>
    match parseValue fuel (skipWs cs) with
    | none => none
    | some (v, rest) =>
      match skipWs rest with
      | ',' :: rest2 =>
        match parseElems fuel rest2 with
        | some (vs, rest3) => some (v :: vs, rest3)
        | none => none
      | ']' :: rest2 => some ([v], rest2)
      | _ => none

/-- Non-empty comma-separated object members, ending at the closing
brace. -/
def parseMembers : Nat → List Char →
    Option (List (String × JsonValue) × List Char)
  | 0, _ => none
  | Nat.succ fuel, cs =>
    match skipWs cs with
    | '"' :: r =>
      match parseStringBody fuel r with
      | none => none
      | some (key, r2) =>
        match skipWs r2 with
        | ':' :: r3 =>
          match parseValue fuel (skipWs r3) with
          | none => none
          | some (v, r4) =>
            match skipWs r4 with
            | ',' :: r5 =>
              match parseMembers fuel r5 with
              | some (ms, r6) => some ((String.mk key, v) :: ms, r6)
              | none => none
            | '}' :: r5 => some ([(String.mk key, v)], r5)
            | _ => none
        | _ => none
    | _ => none

end

/-- Model of `JSON.parse`: a complete JSON text (value surrounded by optional
whitespace); `none` models a thrown `SyntaxError`.  The fuel `2·length + 2`
exceeds the recursion depth of any run, since at least one input character is
consumed for every two fuel units spent. -/
def jsonParse (s : String) : Option JsonValue :=
  match parseValue (2 * s.toList.length + 2) (skipWs s.toList) with
  | some (v, rest) => if (skipWs rest).isEmpty then some v else none
  | none => none

/-- Model of the regular-expression call `content.match(/\x7b[\s\S]*\x7d/)`
used by both route modules to locate a JSON object in the completion text.
The pattern is an opening brace, a greedy run of arbitrary characters, and a
closing brace.  A match starting at index `i` therefore exists exactly when
the character at `i` is an opening brace and some closing brace occurs after
`i`; the engine tries start positions left to right and, on the first viable
one, greedy backtracking ends the match at the last closing brace of the
text.  Since the earliest opening brace is the first viable start whenever
any start is viable, the match — when it exists — runs from the first opening
brace of the text to its last closing brace.  The implementation below drops
the prefix before the first opening brace, then drops the suffix after the
last closing brace of what remains; the result is empty exactly when no match
exists. -/
def jsMatchBrace (cs : List Char) : Option (List Char) :=
  let tail := cs.dropWhile (fun c => c != '{')
  let span := (tail.reverse.dropWhile (fun c => c != '}')).reverse
  if span.isEmpty then none else some span

/-- Last binding of a key in a parsed object's field list (in `JSON.parse`, a
later duplicate key overwrites an earlier one). -/
def lookupLast (kvs : List (String × JsonValue)) (name : String) :
    Option JsonValue :=
  kvs.foldl (fun acc kv => if kv.1 = name then some kv.2 else acc) none

/-- JavaScript property read `v.name`: a field of an object, `undefined`
(here `none`) on any other non-null value. -/
def jsField (v : JsonValue) (name : String) : Option JsonValue :=
  match v with
  | .obj kvs => lookupLast kvs name
  | _ => none

/-- JavaScript element read `v[0]`: the head of an array, otherwise
`undefined`.  (For a string operand JavaScript would yield the first
character, whose subsequent `.message` read is `undefined` again, so folding
that case to `none` preserves every observable outcome of the chain this
model serves.) -/
def jsIndexZero : JsonValue → Option JsonValue
  | .arr (x :: _) => some x
  | _ => none

/-- One step of an optional chain `base?.step`: short-circuits to `undefined`
when the base is `undefined` or `null`. -/
def jsOpt (f : JsonValue → Option JsonValue) (o : Option JsonValue) :
    Option JsonValue :=
  match o with
  | none => none
  | some .null => none
  | some v => f v

/-- Whether a number lexeme denotes zero: no non-zero digit occurs in its
significand (everything before any exponent marker). -/
def numLexemeIsZero (lex : String) : Bool :=
  (lex.toList.takeWhile (fun c => !(c = 'e' || c = 'E'))).all
    (fun c => !(isOneNine c))

/-- JavaScript truthiness of a JSON value: `null`, `false`, a zero number and
the empty string are falsy; every other value (including any array or
object) is truthy. -/
def jsTruthy : JsonValue → Bool
  | .null => false
  | .bool b => b
  | .num lex => !(numLexemeIsZero lex)
  | .str s => s != ""
  | .arr _ => true
  | .obj _ => true

/-- The read `data.choices?.[0]?.message?.content` performed by both route
modules on the parsed completion body.  The first read, `data.choices`, is
not guarded by optional chaining, so it throws a `TypeError` when `data` is
`null` (modelled by the `Except` error); after that, each link
short-circuits on `null`/`undefined`. -/
def jsGetContent (data : JsonValue) : Except Unit (Option JsonValue) :=
  match data with
  | .null => .error ()
  | d =>
    .ok (jsOpt (fun m => jsField m "content")
          (jsOpt (fun m => jsField m "message")
            (jsOpt jsIndexZero (jsField d "choices"))))

/-- Failure taxonomy of the embedded route modules: one constructor per
`throw` site plus the builtin throws (`SyntaxError` from `JSON.parse`,
`TypeError` from property access or a method call on a non-string).  The
`upstreamError` form (status and body text) is thrown by
`src/unnamed/part_002`; the `upstreamStatus` form (status only in the
message) by `src/server/routes.ts`. -/
inductive AnalyzeError where
  | unconfigured
  | imageTooLarge (sizeKB : Nat)
  | transport (msg : String)
  | upstreamError (status : Nat) (body : String)
  | upstreamStatus (status : Nat)
  | bodyNotJson
  | noResponse
  | malformedResponse
  | resultNotJson
  | nullTypeError
  | contentTypeError
  | payloadTypeError
deriving DecidableEq

/-- Message string carried by each thrown error, as surfaced to the HTTP
boundary by `error.message`.  Messages of builtin `SyntaxError`/`TypeError`
throws are implementation-defined in JavaScript; the strings used for them
here are placeholders and no claim depends on them. -/
def errorMessage : AnalyzeError → String
  | .unconfigured => "ABACUS_API_KEY is not configured"
  | .imageTooLarge kb =>
      "Image too large (" ++ toString kb ++ "KB). Please use a smaller image."
  | .transport msg => msg
  | .upstreamError status body =>
      "RouteLLM error " ++ toString status ++ ": " ++ body
  | .upstreamStatus status => "Abacus API error: " ++ toString status
  | .bodyNotJson => "Unexpected token in JSON"
  | .noResponse => "No response from Abacus API"
  | .malformedResponse => "Could not parse response from Abacus API"
  | .resultNotJson => "Unexpected token in JSON"
  | .nullTypeError => "Cannot read properties of null"
  | .contentTypeError => "content.match is not a function"
  | .payloadTypeError => "imageBase64.startsWith is not a function"

/-- An HTTP response as seen through `fetch`: status code and body text
(`response.text()` returns the body text; `response.json()` parses it). -/
structure HttpResponse where
  status : Nat
  bodyText : String
deriving DecidableEq

/-- The `ok` property of a fetch `Response`: status in the range 200–299. -/
def responseOk (r : HttpResponse) : Bool :=
  decide (200 ≤ r.status ∧ r.status ≤ 299)

/-- Outcome of one network attempt, as decided by the environment: either
the promise rejects (network error, or the abort fired by the per-attempt
timeout — the carried string is the error's message) or it resolves to a
response (well-formed HTTP of any status). -/
inductive FetchOutcome where
  | throws (msg : String)
  | resp (r : HttpResponse)

/-- Server-side configuration: the `ABACUS_API_KEY` environment variable
(`none` models an unset variable). -/
structure ServerEnv where
  abacusApiKey : Option String

/-- Truthiness of the credential as tested by `if (!apiKey)`: present and
non-empty. -/
def apiKeyTruthy (env : ServerEnv) : Bool :=
  match env.abacusApiKey with
  | none => false
  | some s => s != ""

/-- Shared response-extraction logic of both route modules (lines 121–132 of
`src/unnamed/part_002` and lines 88–99 of `src/server/routes.ts`, which are
textually identical): locate a brace span in the completion text and parse
it; the parsed value is returned as the result with no validation of its
fields. -/
def extract (content : String) : Except AnalyzeError JsonValue :=
  match jsMatchBrace content.toList with
  | none => .error .malformedResponse
  | some span =>
    match jsonParse (String.mk span) with
    | none => .error .resultNotJson
    | some v => .ok v

/-- Shared handling of the parsed completion body `data` in both route
modules: read `data.choices?.[0]?.message?.content`, fail when the content
is missing or falsy (`if (!content)` — note the empty string is falsy),
fail with a `TypeError` when it is truthy but not a string (`content.match`
would not be a function), and otherwise extract the brace span. -/
def extractContent (data : JsonValue) : Except AnalyzeError JsonValue :=
  match jsGetContent data with
  | .error () => .error .nullTypeError
  | .ok none => .error .noResponse
  | .ok (some (.str s)) =>
      if s = "" then .error .noResponse else extract s
  | .ok (some v) =>
      if jsTruthy v then .error .contentTypeError else .error .noResponse

/-- An HTTP reply produced by an Express handler: status code and JSON
body. -/
structure HttpReply where
  status : Nat
  body : JsonValue

namespace Part002

/-- Body of the retry loop of `fetchWithRetry` in `src/unnamed/part_002`
(lines 21–37), with the remaining attempt indices as a list: on a resolved
response the loop returns it at once; on a rejection the caught error is
rethrown when this was the last attempt (`attempt === retries`) and the loop
continues otherwise.  The empty-list case corresponds to the
`throw new Error("Unreachable")` after the loop, which no run with a
non-empty attempt list reaches.  Next to the outcome, the list of issued
calls is returned, each entry recording the timeout the attempt was
configured with. -/
def fetchLoop (oracle : Nat → FetchOutcome) (timeoutMs : Nat) :
    List Nat → Except String HttpResponse × List Nat
  | [] => (.error "Unreachable", [])
  | a :: rest =>
    match oracle a with
    | .resp r => (.ok r, [timeoutMs])
    | .throws e =>
      match rest with
      | [] => (.error e, [timeoutMs])
      | _ :: _ =>
        let p := fetchLoop oracle timeoutMs rest
        (p.1, timeoutMs :: p.2)

/-- `fetchWithRetry(url, options, retries, timeoutMs)`: the loop runs
attempts `0` through `retries`.  At its call sites the source passes
`retries = 2, timeoutMs = 15000` (the declared defaults) for analysis and
`retries = 0, timeoutMs = 5000` for the health check. -/
def fetchWithRetry (oracle : Nat → FetchOutcome) (retries timeoutMs : Nat) :
    Except String HttpResponse × List Nat :=
  fetchLoop oracle timeoutMs (List.range (retries + 1))

/-- Estimated decoded payload size in KB computed by `analyzeWithAbacus`:
`Math.ceil((imageBase64.length * 3) / 4 / 1024)`.  All intermediate
double-precision operations are exact for any representable length (the
divisors are powers of two), so the value is the ceiling of
`3·length / 4096`, written here with natural-number ceiling division. -/
def base64SizeKB (length : Nat) : Nat :=
  (3 * length + 4095) / 4096

/-- `analyzeWithAbacus` of `src/unnamed/part_002` (lines 42–138): credential
guard, size guard (both before any network call), then `fetchWithRetry` with
2 retries and a 15 s per-attempt timeout, immediate failure with status and
body text on a non-2xx response, `response.json()`, and the shared content
extraction.  The surrounding try/catch only logs and rethrows, so it is the
identity on outcomes.  Returns the result together with the number of
network calls issued.  (The prompt text and the data-URI normalisation of
lines 49–75 only shape the request payload, which the network oracle does
not observe, so they are not modelled.) -/
def analyzeWithAbacus (env : ServerEnv) (oracle : Nat → FetchOutcome)
    (imageBase64 : String) : Except AnalyzeError JsonValue × Nat :=
  if !(apiKeyTruthy env) then (.error .unconfigured, 0)
  else
    let sizeKB := base64SizeKB imageBase64.length
    if 4500 < sizeKB then (.error (.imageTooLarge sizeKB), 0)
    else
      match fetchWithRetry oracle 2 15000 with
      | (.error e, calls) => (.error (.transport e), calls.length)
      | (.ok r, calls) =>
        if !(responseOk r) then
          (.error (.upstreamError r.status r.bodyText), calls.length)
        else
          match jsonParse r.bodyText with
          | none => (.error .bodyNotJson, calls.length)
          | some data => (extractContent data, calls.length)

/-- The `POST /api/analyze` handler of `src/unnamed/part_002`
(lines 141–157): destructure `imageBase64` from the request body, reply 400
when it is falsy, otherwise run the analysis and reply 200 with the result
or 500 with the error message.  A truthy non-string field is passed into
`analyzeWithAbacus`, where (after the credential guard) the call
`imageBase64.startsWith` throws a `TypeError` before any network call; the
catch turns any throw into a 500.  Returns the reply and the number of
upstream calls issued. -/
def postAnalyze (env : ServerEnv) (oracle : Nat → FetchOutcome)
    (body : JsonValue) : HttpReply × Nat :=
  match jsField body "imageBase64" with
  | some (.str s) =>
    if s = "" then
      (⟨400, .obj [("error", .str "Image data is required")]⟩, 0)
    else
      match analyzeWithAbacus env oracle s with
      | (.ok v, n) => (⟨200, v⟩, n)
      | (.error e, n) =>
        (⟨500, .obj [("error", .str (errorMessage e))]⟩, n)
  | some v =>
    if jsTruthy v then
      (⟨500, .obj [("error", .str (errorMessage
        (if apiKeyTruthy env then .payloadTypeError else .unconfigured)))]⟩, 0)
    else
      (⟨400, .obj [("error", .str "Image data is required")]⟩, 0)
  | none => (⟨400, .obj [("error", .str "Image data is required")]⟩, 0)

/-- The `GET /api/health/abacus` handler of `src/unnamed/part_002`
(lines 159–187): one `fetchWithRetry` call with `retries = 0` and a 5000 ms
timeout (no credential guard — the bearer header is built from whatever the
environment holds), replying 200 with body `status: ok` on a 2xx response
and 503 with body `status: down` on a non-2xx response or a thrown
transport error. -/
def healthAbacus (oracle : Nat → FetchOutcome) : HttpReply × List Nat :=
  match fetchWithRetry oracle 0 5000 with
  | (.ok r, calls) =>
    if responseOk r then (⟨200, .obj [("status", .str "ok")]⟩, calls)
    else (⟨503, .obj [("status", .str "down")]⟩, calls)
  | (.error _, calls) => (⟨503, .obj [("status", .str "down")]⟩, calls)

end Part002

namespace RoutesTs

/-- `analyzeWithAbacus` of `src/server/routes.ts` (lines 15–105): credential
guard, then a single plain `fetch` — no size guard, no retry, no timeout.
A non-2xx response throws with the status in the message (the body text is
only logged); an ok response goes through `response.json()` and the shared
content extraction.  Every branch past the credential guard issues exactly
one network call. -/
def analyzeWithAbacus (env : ServerEnv) (oracle : Nat → FetchOutcome)
    (imageBase64 : String) : Except AnalyzeError JsonValue × Nat :=
  if !(apiKeyTruthy env) then (.error .unconfigured, 0)
  else
    (match oracle 0 with
     | .throws e => .error (.transport e)
     | .resp r =>
       if !(responseOk r) then .error (.upstreamStatus r.status)
       else
         match jsonParse r.bodyText with
         | none => .error .bodyNotJson
         | some data => extractContent data, 1)

end RoutesTs

namespace Client

/-- A history entry as saved by `handleSaveToHistory` in
`src/unnamed/part_001` (lines 342–350).  In the source the `id` is
`Date.now().toString()` and `date` is the current ISO timestamp; the clock
is an input of the model, so both arrive as fields of the entry to save. -/
structure HistoryItem where
  id : String
  imageBase64 : String
  roastLevel : String
  temperature : String
  temperatureRange : String
  notes : String
  date : String
deriving DecidableEq

/-- The save operation of `handleSaveToHistory` (lines 352–353): prepend the
new entry (`unshift`) and store the first 50 entries (`slice(0, 50)`). -/
def handleSaveToHistory (newItem : HistoryItem) (history : List HistoryItem) :
    List HistoryItem :=
  (newItem :: history).take 50

/-- A sequence of saves applied in order to a starting collection. -/
def saveAll (start : List HistoryItem) (items : List HistoryItem) :
    List HistoryItem :=
  items.foldl (fun h e => handleSaveToHistory e h) start

end Client

/-! Concrete inputs used by counterexamples and witnesses.  `\x7b` and
`\x7d` denote the brace characters. -/

/-- Escape a string for inclusion in a JSON string literal (test scaffolding
only, not a model of source code). -/
def qesc (s : String) : String :=
  String.mk (s.toList.foldr
    (fun c acc =>
      match c with
      | '"' => '\\' :: '"' :: acc
      | '\\' => '\\' :: '\\' :: acc
      | c => c :: acc) [])

/-- A chat-completion response body whose single choice carries the given
content string, matching the upstream wire shape
`choices[0].message.content`. -/
def chatBody (content : String) : String :=
  "\x7b\"choices\":[\x7b\"message\":\x7b\"content\":\"" ++ qesc content ++
    "\"\x7d\x7d]\x7d"

/-- A configured server environment. -/
def envOk : ServerEnv := ⟨some "test-key"⟩

/-- A complete analysis result object as emitted by the upstream model. -/
def contentGood : String :=
  "\x7b\"roastLevel\":\"Dark\",\"temperature\":\"82\",\"temperatureRange\":\"80-85\",\"notes\":\"x\"\x7d"

/-- The parse of `contentGood`. -/
def objGood : JsonValue :=
  .obj [("roastLevel", .str "Dark"), ("temperature", .str "82"),
        ("temperatureRange", .str "80-85"), ("notes", .str "x")]

/-- An upstream oracle whose every attempt resolves to a 200 response
carrying `contentGood`. -/
def oracleOk : Nat → FetchOutcome :=
  fun _ => .resp ⟨200, chatBody contentGood⟩

/-- An upstream oracle whose first attempt rejects with a network error and
whose later attempts resolve to a 200 response carrying `contentGood`. -/
def oracleRetry : Nat → FetchOutcome :=
  fun n => if n = 0 then .throws "network failure"
           else .resp ⟨200, chatBody contentGood⟩

/-- The spec's extraction example: the analysis object wrapped in leading
prose. -/
def exampleContent : String :=
  "Sure! Here is the result: \x7b\"roastLevel\":\"Dark\",\"temperature\":\"82\",\"temperatureRange\":\"80-85°C\",\"notes\":\"x\"\x7d"

/-- The object embedded in `exampleContent`. -/
def exampleObj : JsonValue :=
  .obj [("roastLevel", .str "Dark"), ("temperature", .str "82"),
        ("temperatureRange", .str "80-85°C"), ("notes", .str "x")]

/-- A syntactically valid analysis object missing the `notes` field. -/
def contentMissingNotes : String :=
  "\x7b\"roastLevel\":\"Dark\",\"temperature\":\"82\",\"temperatureRange\":\"80-85°C\"\x7d"

/-- The parse of `contentMissingNotes`: only three of the four required
fields. -/
def objMissingNotes : JsonValue :=
  .obj [("roastLevel", .str "Dark"), ("temperature", .str "82"),
        ("temperatureRange", .str "80-85°C")]

/-- An upstream oracle resolving to a 200 response whose content is
`contentMissingNotes`. -/
def oracleMissingNotes : Nat → FetchOutcome :=
  fun _ => .resp ⟨200, chatBody contentMissingNotes⟩

/-- Upstream text containing two complete JSON objects separated by prose:
its first balanced brace span is the object `"a": "1"` (characters 7–15),
but the greedy match runs through the last closing brace of the text. -/
def twoObjectsText : String :=
  "First: \x7b\"a\":\"1\"\x7d then \x7b\"b\":\"2\"\x7d"

/-- The span `jsMatchBrace` locates in `twoObjectsText`: from the first
opening brace to the last closing brace, covering both objects and the prose
between them. -/
def greedySpan : String :=
  "\x7b\"a\":\"1\"\x7d then \x7b\"b\":\"2\"\x7d"

/-- The first balanced brace span of `twoObjectsText`, which the claim under
test says the extractor should locate. -/
def firstBalancedSpan : String :=
  "\x7b\"a\":\"1\"\x7d"

/-- A request body with a non-empty `imageData` field and no `imageBase64`
field. -/
def bodyImageDataOnly : JsonValue :=
  .obj [("imageData", .str "abc")]

/-- An image payload whose estimated decoded size (4541 KB) exceeds the
4500 KB ceiling: 6 200 000 base64 characters. -/
def bigImage : String :=
  String.mk (List.replicate 6200000 'A')

/-- 51 history entries with pairwise distinct ids. -/
def items51 : List Client.HistoryItem :=
  (List.range 51).map (fun n => ⟨toString n, "", "", "", "", "", ""⟩)

/-- A request body carrying the payload under `imageBase64` (and no
`imageData` field). -/
def bodyBase64Only : JsonValue :=
  .obj [("imageBase64", .str "abc")]

/-- A history entry with a clock-derived id. -/
def itemA : Client.HistoryItem :=
  ⟨"1700000000000", "img", "Dark", "82", "80-85", "note", "d1"⟩

/-- A second history entry, saved one clock tick later. -/
def itemB : Client.HistoryItem :=
  ⟨"1700000000001", "img2", "Light", "94", "92-96", "note2", "d2"⟩

/-! Helper lemmas. -/

/-- Dropping while a predicate holds skips a prefix on which it holds
everywhere. -/
theorem dropWhile_append_of_forall {α : Type} (p : α → Bool)
    (l₁ l₂ : List α) (h : ∀ a ∈ l₁, p a = true) :
    (l₁ ++ l₂).dropWhile p = l₂.dropWhile p := by
  induction l₁ with
  | nil => simp
  | cons a t ih =>
    simp only [List.cons_append, List.dropWhile_cons,
      h a (List.mem_cons_self a t), if_true]
    exact ih (fun x hx => h x (List.mem_cons_of_mem a hx))

/-- Truncating an append to `n` entries is unaffected by pre-truncating the
second part to `n` entries. -/
theorem take_append_take {α : Type} (a l : List α) (n : Nat) :
    (a ++ l.take n).take n = (a ++ l).take n := by
  rw [List.take_append_eq_append_take, List.take_append_eq_append_take,
    List.take_take]
  rw [Nat.min_eq_left (Nat.sub_le n a.length)]

/-- Running a sequence of saves over a collection of at most 50 entries
yields the reversed saves prepended to the collection, truncated to 50. -/
theorem saveAll_closed_form (items : List Client.HistoryItem) :
    ∀ start : List Client.HistoryItem, start.length ≤ 50 →
      Client.saveAll start items = (items.reverse ++ start).take 50 := by
  induction items with
  | nil =>
    intro start h
    simpa [Client.saveAll] using (List.take_of_length_le h).symm
  | cons e rest ih =>
    intro start h
    have h50 : (Client.handleSaveToHistory e start).length ≤ 50 := by
      simp [Client.handleSaveToHistory, List.length_take]
    calc Client.saveAll start (e :: rest)
        = Client.saveAll (Client.handleSaveToHistory e start) rest := rfl
      _ = (rest.reverse ++ (e :: start).take 50).take 50 := ih _ h50
      _ = (rest.reverse ++ (e :: start)).take 50 := take_append_take _ _ _
      _ = ((e :: rest).reverse ++ start).take 50 := by
            simp [List.reverse_cons, List.append_assoc]

/-- A resolved attempt ends the retry loop at once with one issued call. -/
theorem fetchLoop_cons_resp (oracle : Nat → FetchOutcome)
    (timeoutMs a : Nat) (rest : List Nat) (r : HttpResponse)
    (h : oracle a = .resp r) :
    Part002.fetchLoop oracle timeoutMs (a :: rest) = (.ok r, [timeoutMs]) := by
  simp [Part002.fetchLoop, h]

/-- A rejection on the last attempt rethrows the caught error. -/
theorem fetchLoop_single_throws (oracle : Nat → FetchOutcome)
    (timeoutMs a : Nat) (e : String) (h : oracle a = .throws e) :
    Part002.fetchLoop oracle timeoutMs [a] = (.error e, [timeoutMs]) := by
  simp [Part002.fetchLoop, h]

/-- A rejection with attempts remaining records the call and continues. -/
theorem fetchLoop_cons_throws (oracle : Nat → FetchOutcome)
    (timeoutMs a b : Nat) (rest : List Nat) (e : String)
    (h : oracle a = .throws e) :
    Part002.fetchLoop oracle timeoutMs (a :: b :: rest) =
      ((Part002.fetchLoop oracle timeoutMs (b :: rest)).1,
        timeoutMs :: (Part002.fetchLoop oracle timeoutMs (b :: rest)).2) := by
  simp [Part002.fetchLoop, h]

/-- Oversized payloads exist: the 6 200 000-character fixture estimates to
more than 4500 KB. -/
theorem bigImage_oversized : 4500 < Part002.base64SizeKB bigImage.length := by
  have h : bigImage.length = 6200000 := List.length_replicate 6200000 'A'
  rw [h]; decide

/-! Claim theorems. -/

/-- Claim C1: with the credential configured, every encoded image payload
whose estimated size (encoded length × 3/4, rounded up, converted to KB)
exceeds 4500 KB makes `analyzeWithAbacus` fail with the image-too-large
error while issuing zero network calls — the size check runs strictly
before any upstream request. -/
theorem analyze_oversized_rejected_before_network
    (env : ServerEnv) (oracle : Nat → FetchOutcome) (img : String)
    (hkey : apiKeyTruthy env = true)
    (hsize : 4500 < Part002.base64SizeKB img.length) :
    Part002.analyzeWithAbacus env oracle img =
      (.error (.imageTooLarge (Part002.base64SizeKB img.length)), 0) := by
  simp [Part002.analyzeWithAbacus, hkey, hsize]

/-- Witness for C1: the oversized fixture payload is rejected with zero
network calls even though the upstream oracle would answer. -/
theorem analyze_oversized_rejected_before_network_witness :
    Part002.analyzeWithAbacus envOk oracleOk bigImage =
      (.error (.imageTooLarge (Part002.base64SizeKB bigImage.length)), 0) :=
  analyze_oversized_rejected_before_network envOk oracleOk bigImage rfl
    bigImage_oversized

/-- Claim C2: for the retry combinator with retry limit 2 (3 total
attempts): a transport failure on attempt 1 followed by a resolved attempt 2
returns the attempt-2 response with exactly 2 network calls; transport
failures on all 3 attempts make exactly 3 network calls and surface the last
transport error. -/
theorem fetchWithRetry_retry_semantics :
    (∀ (oracle : Nat → FetchOutcome) (t : Nat) (e : String)
        (r : HttpResponse), oracle 0 = .throws e → oracle 1 = .resp r →
      Part002.fetchWithRetry oracle 2 t = (.ok r, [t, t])) ∧
    (∀ (oracle : Nat → FetchOutcome) (t : Nat) (e0 e1 e2 : String),
      oracle 0 = .throws e0 → oracle 1 = .throws e1 →
        oracle 2 = .throws e2 →
      Part002.fetchWithRetry oracle 2 t = (.error e2, [t, t, t])) := by
  constructor
  · intro oracle t e r h0 h1
    show Part002.fetchLoop oracle t [0, 1, 2] = _
    rw [fetchLoop_cons_throws oracle t 0 1 [2] e h0,
      fetchLoop_cons_resp oracle t 1 [2] r h1]
  · intro oracle t e0 e1 e2 h0 h1 h2
    show Part002.fetchLoop oracle t [0, 1, 2] = _
    rw [fetchLoop_cons_throws oracle t 0 1 [2] e0 h0,
      fetchLoop_cons_throws oracle t 1 2 [] e1 h1,
      fetchLoop_single_throws oracle t 2 e2 h2]

/-- Witness for C2: both retry shapes evaluated on concrete oracles. -/
theorem fetchWithRetry_retry_semantics_witness :
    Part002.fetchWithRetry
        (fun n => if n = 0 then .throws "e0" else .resp ⟨200, "ok"⟩) 2 15000 =
      (.ok ⟨200, "ok"⟩, [15000, 15000]) ∧
    Part002.fetchWithRetry
        (fun n => if n = 0 then .throws "a"
                  else if n = 1 then .throws "b" else .throws "c") 2 15000 =
      (.error "c", [15000, 15000, 15000]) :=
  ⟨fetchWithRetry_retry_semantics.1 _ 15000 "e0" ⟨200, "ok"⟩ rfl rfl,
   fetchWithRetry_retry_semantics.2 _ 15000 "a" "b" "c" rfl rfl rfl⟩

/-- Claim C5: when an upstream attempt (after any number of failed earlier
attempts within the 3-attempt budget) resolves to a well-formed non-2xx
response, no further attempt is made: the analysis fails at once with the
upstream error carrying the response's status code and body text, with
exactly the attempts so far as network calls. -/
theorem nonOk_response_fails_immediately_no_retry
    (env : ServerEnv) (oracle : Nat → FetchOutcome) (img : String)
    (k : Nat) (r : HttpResponse)
    (hkey : apiKeyTruthy env = true)
    (hsize : Part002.base64SizeKB img.length ≤ 4500)
    (hk : k ≤ 2)
    (hthrows : ∀ m, m < k → ∃ e, oracle m = .throws e)
    (hresp : oracle k = .resp r)
    (hok : responseOk r = false) :
    Part002.analyzeWithAbacus env oracle img =
      (.error (.upstreamError r.status r.bodyText), k + 1) := by
  have hfetch : Part002.fetchWithRetry oracle 2 15000 =
      (.ok r, List.replicate (k + 1) 15000) := by
    show Part002.fetchLoop oracle 15000 [0, 1, 2] = _
    interval_cases k
    · rw [fetchLoop_cons_resp oracle 15000 0 [1, 2] r hresp]; rfl
    · obtain ⟨e0, he0⟩ := hthrows 0 (by norm_num)
      rw [fetchLoop_cons_throws oracle 15000 0 1 [2] e0 he0,
        fetchLoop_cons_resp oracle 15000 1 [2] r hresp]
      rfl
    · obtain ⟨e0, he0⟩ := hthrows 0 (by norm_num)
      obtain ⟨e1, he1⟩ := hthrows 1 (by norm_num)
      rw [fetchLoop_cons_throws oracle 15000 0 1 [2] e0 he0,
        fetchLoop_cons_throws oracle 15000 1 2 [] e1 he1,
        fetchLoop_cons_resp oracle 15000 2 [] r hresp]
      rfl
  have hnlt : ¬ (4500 < Part002.base64SizeKB img.length) := by omega
  simp [Part002.analyzeWithAbacus, hkey, hnlt, hfetch, hok]

/-- Witness for C5: a first-attempt 500 response surfaces at once with one
network call. -/
theorem nonOk_response_fails_immediately_no_retry_witness :
    Part002.analyzeWithAbacus envOk (fun _ => .resp ⟨500, "bad gateway"⟩)
        "abc" =
      (.error (.upstreamError 500 "bad gateway"), 1) :=
  nonOk_response_fails_immediately_no_retry envOk
    (fun _ => .resp ⟨500, "bad gateway"⟩) "abc" 0 ⟨500, "bad gateway"⟩
    rfl (by decide) (by decide)
    (fun m hm => absurd hm (by omega)) rfl rfl

/-- Claim C7: the health endpoint issues exactly one upstream attempt, with
a 5000 ms timeout; it replies 200 with body `status: ok` exactly when the
attempt resolves to a 2xx response, and replies 503 with the constant body
`status: down` on a non-2xx response as well as on a thrown transport error,
exposing no failure cause. -/
theorem health_single_attempt_binary (oracle : Nat → FetchOutcome) :
    (Part002.healthAbacus oracle).2 = [5000] ∧
    (∀ r : HttpResponse, oracle 0 = .resp r →
      (Part002.healthAbacus oracle).1 =
        if responseOk r then ⟨200, .obj [("status", .str "ok")]⟩
        else ⟨503, .obj [("status", .str "down")]⟩) ∧
    (∀ e : String, oracle 0 = .throws e →
      (Part002.healthAbacus oracle).1 =
        ⟨503, .obj [("status", .str "down")]⟩) := by
  refine ⟨?_, ?_, ?_⟩
  · cases ho : oracle 0 with
    | throws e =>
      have hf : Part002.fetchWithRetry oracle 0 5000 = (.error e, [5000]) :=
        fetchLoop_single_throws oracle 5000 0 e ho
      simp [Part002.healthAbacus, hf]
    | resp r =>
      have hf : Part002.fetchWithRetry oracle 0 5000 = (.ok r, [5000]) :=
        fetchLoop_cons_resp oracle 5000 0 [] r ho
      cases hr : responseOk r <;> simp [Part002.healthAbacus, hf, hr]
  · intro r ho
    have hf : Part002.fetchWithRetry oracle 0 5000 = (.ok r, [5000]) :=
      fetchLoop_cons_resp oracle 5000 0 [] r ho
    cases hr : responseOk r <;> simp [Part002.healthAbacus, hf, hr]
  · intro e ho
    have hf : Part002.fetchWithRetry oracle 0 5000 = (.error e, [5000]) :=
      fetchLoop_single_throws oracle 5000 0 e ho
    simp [Part002.healthAbacus, hf]

/-- Witness for C7: a 200 upstream response gives one 5000 ms-bounded call
and the ok reply; a 500 response and a thrown error each give the down
reply. -/
theorem health_single_attempt_binary_witness :
    (Part002.healthAbacus (fun _ => .resp ⟨200, "pong"⟩)).2 = [5000] ∧
    (Part002.healthAbacus (fun _ => .resp ⟨200, "pong"⟩)).1 =
      ⟨200, .obj [("status", .str "ok")]⟩ ∧
    (Part002.healthAbacus (fun _ => .resp ⟨500, "oops"⟩)).1 =
      ⟨503, .obj [("status", .str "down")]⟩ ∧
    (Part002.healthAbacus (fun _ => .throws "timeout abort")).1 =
      ⟨503, .obj [("status", .str "down")]⟩ := by
  refine ⟨(health_single_attempt_binary _).1, ?_, ?_, ?_⟩
  · have h := (health_single_attempt_binary
      (fun _ => .resp ⟨200, "pong"⟩)).2.1 ⟨200, "pong"⟩ rfl
    simpa using h
  · have h := (health_single_attempt_binary
      (fun _ => .resp ⟨500, "oops"⟩)).2.1 ⟨500, "oops"⟩ rfl
    simpa using h
  · exact (health_single_attempt_binary
      (fun _ => .throws "timeout abort")).2.2 "timeout abort" rfl

/-- Counterexample to claim C3: the extractor performs no required-field
validation.  On upstream content that is a syntactically valid JSON object
missing the `notes` field, extraction returns the parsed object as a
successful result rather than failing with an invalid-fields error (no such
failure exists in the code). -/
theorem valid_json_missing_notes_is_returned_not_rejected :
    extract contentMissingNotes = .ok objMissingNotes ∧
    jsField objMissingNotes "notes" = none :=
  ⟨rfl, rfl⟩

/-- Claim C3 (amended): whatever object the located span parses to is
returned as the extraction result unchanged, with no validation of the four
required fields; in particular valid JSON missing `notes` is returned as a
result, not rejected. -/
theorem extraction_has_no_field_validation :
    (∀ (s : String) (span : List Char) (v : JsonValue),
      jsMatchBrace s.toList = some span →
      jsonParse (String.mk span) = some v →
      extract s = .ok v) ∧
    extract contentMissingNotes = .ok objMissingNotes ∧
    jsField objMissingNotes "notes" = none := by
  refine ⟨?_, rfl, rfl⟩
  intro s span v h1 h2
  have h1' : jsMatchBrace s.data = some span := h1
  simp [extract, h1', h2]

/-- Witness for C3 (amended): the missing-`notes` content located and parsed
through the general statement. -/
theorem extraction_has_no_field_validation_witness :
    extract contentMissingNotes = .ok objMissingNotes :=
  extraction_has_no_field_validation.1 contentMissingNotes
    contentMissingNotes.toList objMissingNotes rfl rfl

/-- Counterexample to claim C4: on text containing two balanced objects, the
located span is not the first balanced brace span — the greedy match runs
from the first opening brace to the last closing brace of the text, and here
the resulting span is not valid JSON, so extraction fails instead of
returning the first object. -/
theorem matched_span_not_first_balanced_object :
    jsMatchBrace twoObjectsText.toList = some greedySpan.toList ∧
    greedySpan.toList ≠ firstBalancedSpan.toList ∧
    extract twoObjectsText = .error .resultNotJson :=
  ⟨rfl, by decide, rfl⟩

/-- Claim C4 (amended): the extractor locates the span from the first
opening brace through the last closing brace of the text (a greedy match,
coinciding with the first balanced object whenever the leading narration
contains no opening brace and the trailing narration no closing brace); on
the spec's example text it returns exactly the embedded object. -/
theorem extractor_tolerates_braceless_narration :
    extract exampleContent = .ok exampleObj ∧
    (∀ (pre obj post : List Char),
      (∀ c ∈ pre, c ≠ '{') → (∀ c ∈ post, c ≠ '}') →
      obj.head? = some '{' → obj.getLast? = some '}' →
      jsMatchBrace (pre ++ obj ++ post) = some obj) := by
  refine ⟨rfl, ?_⟩
  intro pre obj post hpre hpost hhead hlast
  obtain ⟨t, rfl⟩ : ∃ t, obj = '{' :: t := by
    cases obj with
    | nil => simp at hhead
    | cons c t =>
      rw [List.head?_cons] at hhead
      exact ⟨t, by injection hhead with h; rw [h]⟩
  obtain ⟨s, hs⟩ : ∃ s, ('{' :: t).reverse = '}' :: s := by
    have hh : ('{' :: t).reverse.head? = some '}' := by
      rw [List.head?_reverse]; exact hlast
    cases hr : ('{' :: t).reverse with
    | nil => rw [hr] at hh; simp at hh
    | cons x s =>
      rw [hr, List.head?_cons] at hh
      exact ⟨s, by injection hh with h; rw [h]⟩
  have h1 : (pre ++ ('{' :: t) ++ post).dropWhile (fun c => c != '{') =
      ('{' :: t) ++ post := by
    rw [List.append_assoc,
      dropWhile_append_of_forall (fun c => c != '{') pre (('{' :: t) ++ post)
        (fun a ha => by simpa using hpre a ha)]
    simp [List.dropWhile_cons]
  have h2 : ((('{' :: t) ++ post).reverse).dropWhile (fun c => c != '}') =
      '}' :: s := by
    rw [List.reverse_append, hs,
      dropWhile_append_of_forall (fun c => c != '}') post.reverse ('}' :: s)
        (fun a ha => by
          rw [List.mem_reverse] at ha
          simpa using hpost a ha)]
    simp [List.dropWhile_cons]
  have h3 : ('}' :: s).reverse = '{' :: t := by
    rw [← hs, List.reverse_reverse]
  simp only [jsMatchBrace, h1, h2, h3]
  simp

/-- Witness for C4 (amended): prose without braces around an object is
stripped exactly. -/
theorem extractor_tolerates_braceless_narration_witness :
    jsMatchBrace ("note ".toList ++ "\x7b\"k\":\"v\"\x7d".toList ++
        " end".toList) =
      some ("\x7b\"k\":\"v\"\x7d".toList) :=
  extractor_tolerates_braceless_narration.2 "note ".toList
    "\x7b\"k\":\"v\"\x7d".toList " end".toList
    (by decide) (by decide) (by decide) (by decide)

/-- Counterexample to claim C6: the analyze endpoint reads the payload from
the request body's `imageBase64` field, not from `imageData`.  A body whose
`imageData` is absent but whose `imageBase64` is non-empty is served with a
200 reply and one upstream call (the claim requires a 400 reply and zero
calls there), while a body carrying only a non-empty `imageData` is rejected
with 400. -/
theorem analyze_route_reads_imageBase64_not_imageData :
    Part002.postAnalyze envOk oracleOk bodyBase64Only = (⟨200, objGood⟩, 1) ∧
    Part002.postAnalyze envOk oracleOk bodyImageDataOnly =
      (⟨400, .obj [("error", .str "Image data is required")]⟩, 0) :=
  ⟨rfl, rfl⟩

/-- Claim C6 (amended): the analyze endpoint reads the image payload from
the request body's `imageBase64` field, and whenever that field is absent or
the empty string it responds 400 with an error body and issues zero upstream
network calls. -/
theorem postAnalyze_missing_image_400_no_network
    (env : ServerEnv) (oracle : Nat → FetchOutcome) (body : JsonValue)
    (h : jsField body "imageBase64" = none ∨
      jsField body "imageBase64" = some (.str "")) :
    Part002.postAnalyze env oracle body =
      (⟨400, .obj [("error", .str "Image data is required")]⟩, 0) := by
  rcases h with h | h <;> simp [Part002.postAnalyze, h]

/-- Witness for C6 (amended): a body without the `imageBase64` field gets
the 400 reply with zero upstream calls. -/
theorem postAnalyze_missing_image_400_no_network_witness :
    Part002.postAnalyze envOk oracleOk (.obj [("foo", .str "x")]) =
      (⟨400, .obj [("error", .str "Image data is required")]⟩, 0) :=
  postAnalyze_missing_image_400_no_network envOk oracleOk
    (.obj [("foo", .str "x")]) (.inl rfl)

/-- Claim C8: a save prepends the entry and truncates the stored collection
to at most 50 entries; 51 saves with distinct ids starting from an empty
collection leave exactly the 50 most-recently-saved entries, newest
first. -/
theorem save_prepends_and_caps_at_50 :
    (∀ (e : Client.HistoryItem) (h : List Client.HistoryItem),
      Client.handleSaveToHistory e h = (e :: h).take 50 ∧
      (Client.handleSaveToHistory e h).length ≤ 50) ∧
    (∀ items : List Client.HistoryItem, items.length = 51 →
      (items.map Client.HistoryItem.id).Nodup →
      Client.saveAll [] items = items.reverse.take 50 ∧
      (Client.saveAll [] items).length = 50) := by
  constructor
  · intro e h
    refine ⟨rfl, ?_⟩
    simp only [Client.handleSaveToHistory, List.length_take]
    omega
  · intro items hlen _hnodup
    have h := saveAll_closed_form items [] (by simp)
    rw [List.append_nil] at h
    refine ⟨h, ?_⟩
    rw [h]
    simp only [List.length_take, List.length_reverse, hlen]
    omega

/-- Witness for C8: 51 concrete entries with distinct ids leave the 50 most
recent, newest first. -/
theorem save_prepends_and_caps_at_50_witness :
    Client.saveAll [] items51 = items51.reverse.take 50 ∧
    (Client.saveAll [] items51).length = 50 :=
  save_prepends_and_caps_at_50.2 items51 (by simp [items51]) (by decide)

/-- Claim C9: starting from a stored collection (at most 50 entries, ids
unique) and saving entries whose ids are pairwise distinct and fresh — the
source derives ids from a clock whose ticks the spec takes as distinct — the
stored ids remain unique, and the collection is exactly the insertion order,
newest first, truncated to 50: it is never re-sorted. -/
theorem save_keeps_ids_unique_insertion_order
    (start items : List Client.HistoryItem)
    (hs : start.length ≤ 50)
    (hns : (start.map Client.HistoryItem.id).Nodup)
    (hni : (items.map Client.HistoryItem.id).Nodup)
    (hdisj : ∀ e ∈ items, e.id ∉ start.map Client.HistoryItem.id) :
    Client.saveAll start items = (items.reverse ++ start).take 50 ∧
    ((Client.saveAll start items).map Client.HistoryItem.id).Nodup := by
  have h := saveAll_closed_form items start hs
  refine ⟨h, ?_⟩
  rw [h]
  have hall : ((items.reverse ++ start).map Client.HistoryItem.id).Nodup := by
    rw [List.map_append, List.nodup_append]
    refine ⟨?_, hns, ?_⟩
    · rw [List.map_reverse, List.nodup_reverse]
      exact hni
    · intro a ha hb
      rw [List.map_reverse, List.mem_reverse] at ha
      obtain ⟨e, he, rfl⟩ := List.mem_map.mp ha
      exact hdisj e he hb
  exact List.Nodup.sublist ((List.take_sublist _ _).map _) hall

/-- Witness for C9: two saves with distinct fresh ids onto the empty
collection. -/
theorem save_keeps_ids_unique_insertion_order_witness :
    Client.saveAll [] [itemA, itemB] =
      (([itemA, itemB] : List Client.HistoryItem).reverse ++ []).take 50 ∧
    ((Client.saveAll [] [itemA, itemB]).map Client.HistoryItem.id).Nodup :=
  save_keeps_ids_unique_insertion_order [] [itemA, itemB]
    (by decide) (by decide) (by decide) (by decide)

/-- Claim C10: the `src/server/routes.ts` analysis issues at most one
upstream call per request — exactly one once the credential guard passes —
has no payload-size ceiling (oversized payloads still reach the upstream
call), does not retry a transport failure, and is therefore not
extensionally equal to the `src/unnamed/part_002` implementation: on a
first-attempt transport failure with a healthy second attempt the two differ
in both outcome and number of calls. -/
theorem routes_single_call_no_ceiling_differs_from_part002 :
    (∀ (env : ServerEnv) (oracle : Nat → FetchOutcome) (img : String),
      (RoutesTs.analyzeWithAbacus env oracle img).2 ≤ 1) ∧
    (∀ (env : ServerEnv) (oracle : Nat → FetchOutcome) (img : String),
      apiKeyTruthy env = true →
      (RoutesTs.analyzeWithAbacus env oracle img).2 = 1) ∧
    (∀ (env : ServerEnv) (oracle : Nat → FetchOutcome) (img : String),
      apiKeyTruthy env = true → 4500 < Part002.base64SizeKB img.length →
      (RoutesTs.analyzeWithAbacus env oracle img).2 = 1) ∧
    (∀ (env : ServerEnv) (oracle : Nat → FetchOutcome) (img e : String),
      apiKeyTruthy env = true → oracle 0 = .throws e →
      RoutesTs.analyzeWithAbacus env oracle img =
        (.error (.transport e), 1)) ∧
    RoutesTs.analyzeWithAbacus envOk oracleRetry "abc" ≠
      Part002.analyzeWithAbacus envOk oracleRetry "abc" := by
  refine ⟨?_, ?_, ?_, ?_, ?_⟩
  · intro env oracle img
    cases hk : apiKeyTruthy env <;> simp [RoutesTs.analyzeWithAbacus, hk]
  · intro env oracle img hk
    simp [RoutesTs.analyzeWithAbacus, hk]
  · intro env oracle img hk _hsize
    simp [RoutesTs.analyzeWithAbacus, hk]
  · intro env oracle img e hk ho
    simp [RoutesTs.analyzeWithAbacus, hk, ho]
  · intro hcontra
    have h2 := congrArg Prod.snd hcontra
    rw [show (RoutesTs.analyzeWithAbacus envOk oracleRetry "abc").2 = 1
        from rfl,
      show (Part002.analyzeWithAbacus envOk oracleRetry "abc").2 = 2
        from rfl] at h2
    exact absurd h2 (by decide)

/-- Witness for C10: concrete single-call behaviors of the plain route
implementation, including on an oversized payload and on a transport
failure. -/
theorem routes_single_call_no_ceiling_differs_from_part002_witness :
    (RoutesTs.analyzeWithAbacus envOk oracleOk "abc").2 ≤ 1 ∧
    (RoutesTs.analyzeWithAbacus envOk oracleOk bigImage).2 = 1 ∧
    RoutesTs.analyzeWithAbacus envOk (fun _ => .throws "boom") "abc" =
      (.error (.transport "boom"), 1) :=
  ⟨routes_single_call_no_ceiling_differs_from_part002.1 envOk oracleOk "abc",
   routes_single_call_no_ceiling_differs_from_part002.2.2.1 envOk oracleOk
     bigImage rfl bigImage_oversized,
   routes_single_call_no_ceiling_differs_from_part002.2.2.2.1 envOk
     (fun _ => .throws "boom") "abc" "boom" rfl rfl⟩

end RoastModel
